import Mathlib

/-!
Shallow embedding of the executable artifacts of the Actual-build repository:
the two provisioning shell scripts (`setup.sh` and the Codespace setup
script) and the Next.js `RootLayout` component.  The scripts are embedded as
lists of commands executed by a `set -e`-style runner over an explicit
filesystem state; the `node -v | cut -d'v' -f2 | cut -d'.' -f1` version
pipeline is embedded as functions on lists of characters.
-/

namespace ActualBuild

/-! ## The `cut` pipeline of the Node.js version check -/

/-- Split a character list at every occurrence of the delimiter `d`,
mirroring the field-splitting of `cut -d`.  The result is always
non-empty. -/
def splitOnChar (d : Char) : List Char → List (List Char)
  | [] => [[]]
  | c :: cs =>
    match splitOnChar d cs with
    | [] => [[]]
    | f :: rest => if c = d then [] :: f :: rest else (c :: f) :: rest

/-- `cut -d d -f n` on a single line: lines that contain no delimiter are
passed through whole; otherwise the `n`-th field (1-based) is printed. -/
def cutField (d : Char) (n : Nat) (s : List Char) : List Char :=
  match splitOnChar d s with
  | [whole] => whole
  | parts => parts.getD (n - 1) []

/-- `NODE_VERSION=$(node -v | cut -d'v' -f2 | cut -d'.' -f1)` applied to the
output `s` of `node -v`. -/
def nodeMajorString (s : List Char) : List Char :=
  cutField '.' 1 (cutField 'v' 2 s)

/-- Numeric value of a digit string (most significant digit first). -/
def digitsVal (l : List Char) : Nat :=
  l.foldl (fun a c => a * 10 + (c.toNat - 48)) 0

/-- The integer reading performed by `[ "$NODE_VERSION" -lt 18 ]`: a
non-empty all-digit string denotes a number, anything else is a test
syntax error. -/
def parseNat (l : List Char) : Option Nat :=
  if l ≠ [] ∧ l.all Char.isDigit then some (digitsVal l) else none

theorem splitOnChar_ne_nil (d : Char) (l : List Char) : splitOnChar d l ≠ [] := by
  cases l with
  | nil => simp [splitOnChar]
  | cons c cs =>
    unfold splitOnChar
    split
    · simp
    · split <;> simp

theorem splitOnChar_no_delim (d : Char) (l : List Char)
    (h : ∀ c ∈ l, c ≠ d) : splitOnChar d l = [l] := by
  induction l with
  | nil => rfl
  | cons c cs ih =>
    unfold splitOnChar
    rw [ih (fun x hx => h x (List.mem_cons_of_mem c hx))]
    simp [h c (List.mem_cons_self c cs)]

theorem splitOnChar_append (d : Char) (l₁ l₂ : List Char)
    (h : ∀ c ∈ l₁, c ≠ d) :
    splitOnChar d (l₁ ++ d :: l₂) = l₁ :: splitOnChar d l₂ := by
  induction l₁ with
  | nil =>
    show splitOnChar d ([] ++ d :: l₂) = [] :: splitOnChar d l₂
    simp only [List.nil_append]
    cases hs : splitOnChar d l₂ with
    | nil => exact absurd hs (splitOnChar_ne_nil d l₂)
    | cons f rest =>
      simp only [splitOnChar, hs]
      simp
  | cons c cs ih =>
    have hc : c ≠ d := h c (List.mem_cons_self c cs)
    have ih' := ih (fun x hx => h x (List.mem_cons_of_mem c hx))
    show splitOnChar d (c :: (cs ++ d :: l₂)) = (c :: cs) :: splitOnChar d l₂
    simp only [splitOnChar, ih']
    simp [hc]

theorem digit_ne_v {c : Char} (h : c.isDigit = true) : c ≠ 'v' := by
  rintro rfl
  simp [Char.isDigit] at h

theorem digit_ne_dot {c : Char} (h : c.isDigit = true) : c ≠ '.' := by
  rintro rfl
  simp [Char.isDigit] at h

/-- On a well-formed `node -v` output `vMAJ.MIN.PAT`, the pipeline
`cut -d'v' -f2 | cut -d'.' -f1` extracts exactly the major component,
whatever the minor and patch components are. -/
theorem nodeMajorString_render (majD minD patD : List Char)
    (hmaj : majD.all Char.isDigit = true)
    (hmin : minD.all Char.isDigit = true)
    (hpat : patD.all Char.isDigit = true) :
    nodeMajorString ('v' :: (majD ++ '.' :: (minD ++ '.' :: patD))) = majD := by
  have hrest : ∀ c ∈ majD ++ '.' :: (minD ++ '.' :: patD), c ≠ 'v' := by
    intro c hc
    rcases List.mem_append.mp hc with h1 | h1
    · exact digit_ne_v (by simpa using List.all_eq_true.mp hmaj c h1)
    · rcases List.mem_cons.mp h1 with rfl | h2
      · decide
      · rcases List.mem_append.mp h2 with h3 | h3
        · exact digit_ne_v (by simpa using List.all_eq_true.mp hmin c h3)
        · rcases List.mem_cons.mp h3 with rfl | h4
          · decide
          · exact digit_ne_v (by simpa using List.all_eq_true.mp hpat c h4)
    -- end
  have hcut1 : cutField 'v' 2 ('v' :: (majD ++ '.' :: (minD ++ '.' :: patD)))
      = majD ++ '.' :: (minD ++ '.' :: patD) := by
    have : splitOnChar 'v' ('v' :: (majD ++ '.' :: (minD ++ '.' :: patD)))
        = [] :: splitOnChar 'v' (majD ++ '.' :: (minD ++ '.' :: patD)) := by
      have := splitOnChar_append 'v' [] (majD ++ '.' :: (minD ++ '.' :: patD)) (by simp)
      simpa using this
    simp only [cutField]
    rw [this, splitOnChar_no_delim 'v' _ hrest]
    rfl
  have hmajdot : ∀ c ∈ majD, c ≠ '.' := by
    intro c hc
    exact digit_ne_dot (by simpa using List.all_eq_true.mp hmaj c hc)
  have hcut2 : cutField '.' 1 (majD ++ '.' :: (minD ++ '.' :: patD)) = majD := by
    simp only [cutField]
    rw [splitOnChar_append '.' majD (minD ++ '.' :: patD) hmajdot]
    have hne := splitOnChar_ne_nil '.' (minD ++ '.' :: patD)
    cases hs : splitOnChar '.' (minD ++ '.' :: patD) with
    | nil => exact absurd hs hne
    | cons f rest => simp
  rw [nodeMajorString, hcut1, hcut2]

theorem parseNat_digits (l : List Char) (hne : l ≠ [])
    (hd : l.all Char.isDigit = true) : parseNat l = some (digitsVal l) := by
  rw [parseNat, if_pos ⟨hne, hd⟩]

/-! ## Messages echoed by the scripts -/

/-- One constructor per distinct `echo` line of the two scripts.
`nodeVersionErrWith` and `nodeVersionOkWith` carry the interpolated
`$(node -v)` output; `csOutro n` is the `n`-th line of the closing banner
of the Codespace script. -/
inductive Msg where
  | setupStart
  | nodeMissingErr
  | nodeVersionErrWith (v : List Char)
  | nodeVersionOkWith (v : List Char)
  | installingRootDeps
  | creatingEnvFile
  | envEditWarning
  | envAlreadyExists
  | creatingFrontendPkg
  | creatingBackendPkg
  | setupComplete
  | blank
  | nextStepsHeader
  | setupNext1
  | setupNext2
  | setupNext3
  | setupNext4
  | checkReadme
  | csStart
  | csInstallingSysDeps
  | csCreatingEnv
  | csCreatedEnv
  | csEnvExists
  | csInstallingRootDeps
  | csSettingUpFrontend
  | csInstallingNext
  | csSettingUpBackend
  | csInstallingExpress
  | csCreatingTsconfig
  | csSettingUpShared
  | csCreatingDevConfig
  | csComplete
  | csOutro (n : Nat)
  deriving DecidableEq

/-! ## Files, directories and file contents -/

/-- The fixed texts written by `cat > file << 'EOF'` heredocs, one
constructor per heredoc of the two scripts. -/
inductive Template where
  | frontendPkgJson
  | backendPkgJson
  | backendTsconfigJson
  | backendIndexTs
  | sharedTsconfigJson
  | sharedTypesIndexTs
  | sharedIndexTs
  | sharedUtilsIndexTs
  | prettierrcJson
  | eslintrcJsFile
  deriving DecidableEq

/-- The four working directories in which `npm` commands are run. -/
inductive Loc where
  | root
  | frontend
  | backend
  | shared
  deriving DecidableEq

/-- Contents of a file on disk: a heredoc template, an arbitrary
pre-existing content (`user n`), the `package.json` produced by
`npm init -y` or by `create-next-app`, or such a file transformed by
`npm pkg set key=value` / `npm install [--save-dev] pkgs`. -/
inductive Content where
  | tmpl (t : Template)
  | user (n : Nat)
  | npmDefault (l : Loc)
  | createNextAppPkg
  | pkgSet (key value : String) (c : Content)
  | withDeps (dev : Bool) (ps : List String) (c : Content)
  deriving DecidableEq

/-- The files the scripts test for, read or write. -/
inductive FileId where
  | envFile
  | envExample
  | rootPackageJson
  | frontendPackageJson
  | backendPackageJson
  | backendTsconfig
  | backendSrcIndex
  | sharedPackageJson
  | sharedTsconfig
  | sharedTypesIndex
  | sharedIndexTs
  | sharedUtilsIndex
  | prettierrc
  | eslintrcJs
  deriving DecidableEq

/-- The directories the scripts `cd` into or create with `mkdir -p`. -/
inductive DirId where
  | frontendDir
  | backendDir
  | sharedDir
  | backendSrcDir
  | sharedTypesDir
  | sharedUtilsDir
  deriving DecidableEq

/-- The on-disk state touched by the scripts: optional contents for each
file, existence flags for directories, `node_modules` flags for the four
`npm` working directories, a flag for the `create-next-app` scaffold, and
flags for the apt package cache and the installed system packages. -/
structure FS where
  envFile : Option Content
  envExample : Option Content
  rootPackageJson : Option Content
  frontendPackageJson : Option Content
  backendPackageJson : Option Content
  backendTsconfig : Option Content
  backendSrcIndex : Option Content
  sharedPackageJson : Option Content
  sharedTsconfig : Option Content
  sharedTypesIndex : Option Content
  sharedIndexTs : Option Content
  sharedUtilsIndex : Option Content
  prettierrc : Option Content
  eslintrcJs : Option Content
  frontendDir : Bool
  backendDir : Bool
  sharedDir : Bool
  backendSrcDir : Bool
  sharedTypesDir : Bool
  sharedUtilsDir : Bool
  rootNodeModules : Bool
  frontendNodeModules : Bool
  backendNodeModules : Bool
  sharedNodeModules : Bool
  frontendScaffold : Bool
  aptCacheUpdated : Bool
  systemDepsInstalled : Bool
  deriving DecidableEq

def fileOf (f : FileId) (fs : FS) : Option Content :=
  match f with
  | .envFile => fs.envFile
  | .envExample => fs.envExample
  | .rootPackageJson => fs.rootPackageJson
  | .frontendPackageJson => fs.frontendPackageJson
  | .backendPackageJson => fs.backendPackageJson
  | .backendTsconfig => fs.backendTsconfig
  | .backendSrcIndex => fs.backendSrcIndex
  | .sharedPackageJson => fs.sharedPackageJson
  | .sharedTsconfig => fs.sharedTsconfig
  | .sharedTypesIndex => fs.sharedTypesIndex
  | .sharedIndexTs => fs.sharedIndexTs
  | .sharedUtilsIndex => fs.sharedUtilsIndex
  | .prettierrc => fs.prettierrc
  | .eslintrcJs => fs.eslintrcJs

def setFile (f : FileId) (c : Content) (fs : FS) : FS :=
  match f with
  | .envFile => { fs with envFile := some c }
  | .envExample => { fs with envExample := some c }
  | .rootPackageJson => { fs with rootPackageJson := some c }
  | .frontendPackageJson => { fs with frontendPackageJson := some c }
  | .backendPackageJson => { fs with backendPackageJson := some c }
  | .backendTsconfig => { fs with backendTsconfig := some c }
  | .backendSrcIndex => { fs with backendSrcIndex := some c }
  | .sharedPackageJson => { fs with sharedPackageJson := some c }
  | .sharedTsconfig => { fs with sharedTsconfig := some c }
  | .sharedTypesIndex => { fs with sharedTypesIndex := some c }
  | .sharedIndexTs => { fs with sharedIndexTs := some c }
  | .sharedUtilsIndex => { fs with sharedUtilsIndex := some c }
  | .prettierrc => { fs with prettierrc := some c }
  | .eslintrcJs => { fs with eslintrcJs := some c }

def dirOf (d : DirId) (fs : FS) : Bool :=
  match d with
  | .frontendDir => fs.frontendDir
  | .backendDir => fs.backendDir
  | .sharedDir => fs.sharedDir
  | .backendSrcDir => fs.backendSrcDir
  | .sharedTypesDir => fs.sharedTypesDir
  | .sharedUtilsDir => fs.sharedUtilsDir

def setDir (d : DirId) (fs : FS) : FS :=
  match d with
  | .frontendDir => { fs with frontendDir := true }
  | .backendDir => { fs with backendDir := true }
  | .sharedDir => { fs with sharedDir := true }
  | .backendSrcDir => { fs with backendSrcDir := true }
  | .sharedTypesDir => { fs with sharedTypesDir := true }
  | .sharedUtilsDir => { fs with sharedUtilsDir := true }

/-- The `package.json` of an `npm` working directory. -/
def pkgFileOf (l : Loc) : FileId :=
  match l with
  | .root => .rootPackageJson
  | .frontend => .frontendPackageJson
  | .backend => .backendPackageJson
  | .shared => .sharedPackageJson

def nmOf (l : Loc) (fs : FS) : Bool :=
  match l with
  | .root => fs.rootNodeModules
  | .frontend => fs.frontendNodeModules
  | .backend => fs.backendNodeModules
  | .shared => fs.sharedNodeModules

def setNM (l : Loc) (fs : FS) : FS :=
  match l with
  | .root => { fs with rootNodeModules := true }
  | .frontend => { fs with frontendNodeModules := true }
  | .backend => { fs with backendNodeModules := true }
  | .shared => { fs with sharedNodeModules := true }

/-! ## Script execution -/

/-- The execution environment of a script run: the output of `node -v`
(`none` when `command -v node` finds nothing) and the positional
command-line arguments the script was invoked with. -/
structure Env where
  node : Option (List Char)
  args : List String
  deriving DecidableEq

/-- Observable state of a running script: the filesystem and the lines
echoed so far. -/
structure ScriptState where
  fs : FS
  log : List Msg
  deriving DecidableEq

/-- Result of running a command or a command sequence: the exit status and
the state when it stopped. -/
structure SRes where
  exitCode : Nat
  state : ScriptState
  deriving DecidableEq

/-- Basic (non-branching) commands, the bodies of the scripts and of their
`if` blocks. -/
inductive BStep where
  | echoMsg (m : Msg)
  | aptUpdate
  | aptInstall (ps : List String)
  | npmInstall (l : Loc)
  | npmInstallPkgs (l : Loc) (dev : Bool) (ps : List String)
  | npmPkgSet (l : Loc) (key value : String)
  | npmInitY (l : Loc)
  | createNextApp
  | copyFile (src dst : FileId)
  | writeHeredoc (f : FileId) (t : Template)
  | mkdirP (d : DirId)
  deriving DecidableEq

/-- Top-level commands of the scripts: basic commands, the two Node.js
precondition checks of `setup.sh`, the `echo "✅ Node.js version: $(node -v)"`
line, the existence-guarded `if` blocks, and directory changes. -/
inductive Cmd where
  | basic (b : BStep)
  | checkNodeInstalled
  | checkNodeVersion
  | echoNodeVersion
  | ifNotFile (f : FileId) (thenB elseB : List BStep)
  | ifNotNodeModules (l : Loc) (thenB elseB : List BStep)
  | cd (d : DirId)
  | cdUp
  deriving DecidableEq

def sOk (st : ScriptState) : SRes := ⟨0, st⟩

def addLog (m : Msg) (st : ScriptState) : ScriptState :=
  { st with log := st.log ++ [m] }

/-- Semantics of a basic command.  `cp` fails when its source file is
missing; `npm install` (bare) and `npm pkg set` fail when the working
directory has no `package.json`; package installations are modelled as
deterministic successful updates of `node_modules` and `package.json`. -/
def execB (b : BStep) (st : ScriptState) : SRes :=
  match b with
  | .echoMsg m => sOk (addLog m st)
  | .aptUpdate => sOk { st with fs := { st.fs with aptCacheUpdated := true } }
  | .aptInstall _ => sOk { st with fs := { st.fs with systemDepsInstalled := true } }
  | .npmInstall l =>
    match fileOf (pkgFileOf l) st.fs with
    | none => ⟨1, st⟩
    | some _ => sOk { st with fs := setNM l st.fs }
  | .npmInstallPkgs l dev ps =>
    sOk { st with fs := setNM l (setFile (pkgFileOf l)
      (.withDeps dev ps ((fileOf (pkgFileOf l) st.fs).getD (.npmDefault l))) st.fs) }
  | .npmPkgSet l k v =>
    match fileOf (pkgFileOf l) st.fs with
    | none => ⟨1, st⟩
    | some c => sOk { st with fs := setFile (pkgFileOf l) (.pkgSet k v c) st.fs }
  | .npmInitY l => sOk { st with fs := setFile (pkgFileOf l) (.npmDefault l) st.fs }
  | .createNextApp =>
    sOk { st with fs := { st.fs with
      frontendScaffold := true
      frontendNodeModules := true
      frontendPackageJson := some .createNextAppPkg } }
  | .copyFile src dst =>
    match fileOf src st.fs with
    | none => ⟨1, st⟩
    | some c => sOk { st with fs := setFile dst c st.fs }
  | .writeHeredoc f t => sOk { st with fs := setFile f (.tmpl t) st.fs }
  | .mkdirP d => sOk { st with fs := setDir d st.fs }

/-- `set -e` sequencing: run the commands in order, stopping at the first
one that exits with a non-zero status; an empty sequence exits 0. -/
def runList {α : Type} (exec : α → ScriptState → SRes) :
    List α → ScriptState → SRes
  | [], st => sOk st
  | c :: cs, st =>
    let r := exec c st
    if r.exitCode = 0 then runList exec cs r.state else r

def runBs : List BStep → ScriptState → SRes := runList execB

/-- Semantics of a top-level command. -/
def execCmd (env : Env) (c : Cmd) (st : ScriptState) : SRes :=
  match c with
  | .basic b => execB b st
  | .checkNodeInstalled =>
    match env.node with
    | none => ⟨1, addLog .nodeMissingErr st⟩
    | some _ => sOk st
  | .checkNodeVersion =>
    match env.node with
    | none => ⟨2, st⟩
    | some v =>
      match parseNat (nodeMajorString v) with
      | none => ⟨2, st⟩
      | some m =>
        if m < 18 then ⟨1, addLog (.nodeVersionErrWith v) st⟩ else sOk st
  | .echoNodeVersion => sOk (addLog (.nodeVersionOkWith (env.node.getD [])) st)
  | .ifNotFile f thenB elseB =>
    if (fileOf f st.fs).isNone then runBs thenB st else runBs elseB st
  | .ifNotNodeModules l thenB elseB =>
    if nmOf l st.fs then runBs elseB st else runBs thenB st
  | .cd d => if dirOf d st.fs then sOk st else ⟨1, st⟩
  | .cdUp => sOk st

def runCmds (env : Env) : List Cmd → ScriptState → SRes :=
  runList (execCmd env)

/-! ## `setup.sh` -/

/-- Opening banner and the two Node.js precondition checks. -/
def setupChecks : List Cmd :=
  [.basic (.echoMsg .setupStart),
   .checkNodeInstalled,
   .checkNodeVersion,
   .echoNodeVersion]

/-- `npm install` at the repository root. -/
def setupRootInstall : List Cmd :=
  [.basic (.echoMsg .installingRootDeps),
   .basic (.npmInstall .root)]

/-- `if [ ! -f .env ]; then cp .env.example .env; ... fi`. -/
def setupEnvFile : List Cmd :=
  [.ifNotFile .envFile
    [.echoMsg .creatingEnvFile,
     .copyFile .envExample .envFile,
     .echoMsg .envEditWarning]
    [.echoMsg .envAlreadyExists]]

/-- `if [ ! -f frontend/package.json ]; then mkdir -p frontend; cat > ... fi`. -/
def setupFrontendPkg : List Cmd :=
  [.ifNotFile .frontendPackageJson
    [.echoMsg .creatingFrontendPkg,
     .mkdirP .frontendDir,
     .writeHeredoc .frontendPackageJson .frontendPkgJson]
    []]

/-- `if [ ! -f backend/package.json ]; then mkdir -p backend; cat > ... fi`. -/
def setupBackendPkg : List Cmd :=
  [.ifNotFile .backendPackageJson
    [.echoMsg .creatingBackendPkg,
     .mkdirP .backendDir,
     .writeHeredoc .backendPackageJson .backendPkgJson]
    []]

/-- The closing `echo` banner of `setup.sh`. -/
def setupOutro : List Cmd :=
  [.basic (.echoMsg .setupComplete),
   .basic (.echoMsg .blank),
   .basic (.echoMsg .nextStepsHeader),
   .basic (.echoMsg .setupNext1),
   .basic (.echoMsg .setupNext2),
   .basic (.echoMsg .setupNext3),
   .basic (.echoMsg .setupNext4),
   .basic (.echoMsg .blank),
   .basic (.echoMsg .checkReadme)]

/-- The command sequence of `setup.sh`, in source order. -/
def setupCmds : List Cmd :=
  setupChecks ++ setupRootInstall ++ setupEnvFile ++
    setupFrontendPkg ++ setupBackendPkg ++ setupOutro

/-- Running `setup.sh` under `set -e`. -/
def runSetup (env : Env) (st : ScriptState) : SRes :=
  runCmds env setupCmds st

/-! ## The Codespace setup script -/

/-- Banner, `apt-get update` and `apt-get install -y postgresql-client git curl`. -/
def csPrelude : List Cmd :=
  [.basic (.echoMsg .csStart),
   .basic (.echoMsg .csInstallingSysDeps),
   .basic .aptUpdate,
   .basic (.aptInstall ["postgresql-client", "git", "curl"])]

/-- The guarded `.env` creation of the Codespace script. -/
def csEnvSetup : List Cmd :=
  [.ifNotFile .envFile
    [.echoMsg .csCreatingEnv,
     .copyFile .envExample .envFile,
     .echoMsg .csCreatedEnv]
    [.echoMsg .csEnvExists]]

/-- `npm install` at the repository root. -/
def csRootInstall : List Cmd :=
  [.basic (.echoMsg .csInstallingRootDeps),
   .basic (.npmInstall .root)]

/-- `cd frontend`, the `node_modules`-guarded Next.js scaffold, `cd ..`. -/
def csFrontendSetup : List Cmd :=
  [.basic (.echoMsg .csSettingUpFrontend),
   .cd .frontendDir,
   .ifNotNodeModules .frontend
     [.echoMsg .csInstallingNext,
      .createNextApp,
      .npmPkgSet .frontend "scripts.dev" "next dev",
      .npmPkgSet .frontend "scripts.build" "next build",
      .npmPkgSet .frontend "scripts.start" "next start",
      .npmPkgSet .frontend "scripts.lint" "next lint",
      .npmPkgSet .frontend "scripts.test" "jest",
      .npmInstallPkgs .frontend true
        ["jest", "@testing-library/react", "@testing-library/jest-dom"]]
     [],
   .cdUp]

/-- `cd backend`, the `node_modules`-guarded Express setup, `cd ..`. -/
def csBackendSetup : List Cmd :=
  [.basic (.echoMsg .csSettingUpBackend),
   .cd .backendDir,
   .ifNotNodeModules .backend
     [.echoMsg .csInstallingExpress,
      .npmInstallPkgs .backend false
        ["express", "cors", "helmet", "morgan", "dotenv", "bcryptjs",
         "jsonwebtoken"],
      .npmInstallPkgs .backend true
        ["nodemon", "@types/node", "@types/express", "@types/cors",
         "@types/bcryptjs", "@types/jsonwebtoken", "typescript", "ts-node",
         "eslint", "@typescript-eslint/parser",
         "@typescript-eslint/eslint-plugin", "prettier"],
      .npmPkgSet .backend "scripts.dev" "nodemon src/index.ts",
      .npmPkgSet .backend "scripts.start" "node dist/index.js",
      .npmPkgSet .backend "scripts.build" "tsc",
      .npmPkgSet .backend "scripts.test" "jest",
      .npmPkgSet .backend "scripts.lint" "eslint src --ext .ts,.js",
      .npmPkgSet .backend "main" "dist/index.js",
      .echoMsg .csCreatingTsconfig,
      .writeHeredoc .backendTsconfig .backendTsconfigJson,
      .mkdirP .backendSrcDir,
      .writeHeredoc .backendSrcIndex .backendIndexTs]
     [],
   .cdUp]

/-- `cd shared`, the `package.json`-guarded shared-utilities setup, `cd ..`. -/
def csSharedSetup : List Cmd :=
  [.basic (.echoMsg .csSettingUpShared),
   .cd .sharedDir,
   .ifNotFile .sharedPackageJson
     [.npmInitY .shared,
      .npmPkgSet .shared "name" "actual-build-shared",
      .npmPkgSet .shared "description" "Shared utilities and types for Actual Build",
      .npmPkgSet .shared "main" "dist/index.js",
      .npmPkgSet .shared "types" "dist/index.d.ts",
      .npmInstallPkgs .shared true ["typescript", "@types/node"],
      .writeHeredoc .sharedTsconfig .sharedTsconfigJson,
      .mkdirP .sharedTypesDir,
      .writeHeredoc .sharedTypesIndex .sharedTypesIndexTs,
      .writeHeredoc .sharedIndexTs .sharedIndexTs,
      .mkdirP .sharedUtilsDir,
      .writeHeredoc .sharedUtilsIndex .sharedUtilsIndexTs,
      .npmPkgSet .shared "scripts.build" "tsc",
      .npmPkgSet .shared "scripts.dev" "tsc --watch"]
     [],
   .cdUp]

/-- The guarded creation of `.prettierrc` and `.eslintrc.js`. -/
def csDevConfig : List Cmd :=
  [.basic (.echoMsg .csCreatingDevConfig),
   .ifNotFile .prettierrc [.writeHeredoc .prettierrc .prettierrcJson] [],
   .ifNotFile .eslintrcJs [.writeHeredoc .eslintrcJs .eslintrcJsFile] []]

/-- The closing `echo` banner of the Codespace script. -/
def csOutroCmds : List Cmd :=
  .basic (.echoMsg .csComplete) ::
    (List.range 18).map (fun n => .basic (.echoMsg (.csOutro n)))

/-- The command sequence of the Codespace setup script, in source order. -/
def codespaceCmds : List Cmd :=
  csPrelude ++ csEnvSetup ++ csRootInstall ++ csFrontendSetup ++
    csBackendSetup ++ csSharedSetup ++ csDevConfig ++ csOutroCmds

/-- Running the Codespace setup script under `set -e`. -/
def runCodespace (env : Env) (st : ScriptState) : SRes :=
  runCmds env codespaceCmds st

/-! ## The `RootLayout` component -/

/-- React nodes as rendered markup: an empty node (`null`/no children),
a text node, or an element with a tag, attributes and child nodes. -/
inductive Html where
  | empty
  | text (s : String)
  | element (tag : String) (attrs : List (String × String)) (children : List Html)

/-- The `metadata` export of `layout.tsx`. -/
structure PageMetadata where
  title : String
  description : String

def metadata : PageMetadata :=
  { title := "Actual Build", description := "Full Stack Development Environment" }

/-- `RootLayout` from `frontend/src/app/layout.tsx`: wraps its `children`
prop in `<html lang="en"><body className="antialiased">…</body></html>`. -/
def RootLayout (children : Html) : Html :=
  .element "html" [("lang", "en")]
    [.element "body" [("class", "antialiased")] [children]]

def tagOf : Html → Option String
  | .element t _ _ => some t
  | _ => none

def attrsOf : Html → List (String × String)
  | .element _ a _ => a
  | _ => []

/-- The unique child of an element with exactly one child. -/
def onlyChild : Html → Option Html
  | .element _ _ [c] => some c
  | _ => none

/-- The content slot of a document shell: the unique grandchild reached
through two single-child element layers. -/
def slotOf (h : Html) : Option Html :=
  (onlyChild h).bind onlyChild

/-! ## Command classification -/

/-- External-interaction class of a command, judged from what the
underlying program does: `apt-get update/install`, `npm install` and
`npx create-next-app` fetch packages over the network; `cp`, `cat`,
`mkdir`, `npm init -y` and `npm pkg set` only touch the local
filesystem; `echo` only writes output.  No command of the scripts opens a
database connection or checks credentials, so the last two classes are
never assigned. -/
inductive EffectClass where
  | outputOnly
  | packageManagerNetwork
  | localFileSystem
  | databaseConnection
  | authenticationCheck
  deriving DecidableEq

def bstepEffect : BStep → EffectClass
  | .echoMsg _ => .outputOnly
  | .aptUpdate => .packageManagerNetwork
  | .aptInstall _ => .packageManagerNetwork
  | .npmInstall _ => .packageManagerNetwork
  | .npmInstallPkgs _ _ _ => .packageManagerNetwork
  | .npmPkgSet _ _ _ => .localFileSystem
  | .npmInitY _ => .localFileSystem
  | .createNextApp => .packageManagerNetwork
  | .copyFile _ _ => .localFileSystem
  | .writeHeredoc _ _ => .localFileSystem
  | .mkdirP _ => .localFileSystem

/-- The basic commands syntactically contained in a top-level command
(both branches of an `if` block). -/
def cmdBSteps : Cmd → List BStep
  | .basic b => [b]
  | .ifNotFile _ t e => t ++ e
  | .ifNotNodeModules _ t e => t ++ e
  | _ => []

def bstepNetwork (b : BStep) : Bool :=
  bstepEffect b = .packageManagerNetwork

def cmdUsesNetwork (c : Cmd) : Bool :=
  (cmdBSteps c).any bstepNetwork

def cmdDatabaseOrAuth (c : Cmd) : Bool :=
  (cmdBSteps c).any fun b =>
    bstepEffect b = .databaseConnection ∨ bstepEffect b = .authenticationCheck

/-- The tool-version precondition commands of `setup.sh`. -/
def cmdIsVersionCheck : Cmd → Bool
  | .checkNodeInstalled => true
  | .checkNodeVersion => true
  | _ => false

def cmdIsEcho : Cmd → Bool
  | .basic (.echoMsg _) => true
  | _ => false

/-- Does a top-level command consult the environment (the installed
Node.js) at all? -/
def cmdReadsEnv : Cmd → Bool
  | .checkNodeInstalled => true
  | .checkNodeVersion => true
  | .echoNodeVersion => true
  | _ => false

/-- File-creating basic commands (`cp` and `cat > file`). -/
def bstepCreatesFile : BStep → Bool
  | .copyFile _ _ => true
  | .writeHeredoc _ _ => true
  | _ => false

/-- A top-level command that creates a file without an existence guard. -/
def cmdUnguardedWrite : Cmd → Bool
  | .basic b => bstepCreatesFile b
  | _ => false

/-! ## Runner lemmas -/

theorem runList_cons {α : Type} (exec : α → ScriptState → SRes)
    (c : α) (cs : List α) (st : ScriptState) :
    runList exec (c :: cs) st =
      (if (exec c st).exitCode = 0 then runList exec cs (exec c st).state
       else exec c st) := rfl

theorem runList_append {α : Type} (exec : α → ScriptState → SRes)
    (l₁ l₂ : List α) (st : ScriptState) :
    runList exec (l₁ ++ l₂) st =
      (if (runList exec l₁ st).exitCode = 0
       then runList exec l₂ (runList exec l₁ st).state
       else runList exec l₁ st) := by
  induction l₁ generalizing st with
  | nil => simp [runList, sOk]
  | cons c cs ih =>
    simp only [List.cons_append, runList_cons]
    by_cases h : (exec c st).exitCode = 0 <;> simp [h, ih]

theorem runList_append_exit0 {α : Type} (exec : α → ScriptState → SRes)
    (l₁ l₂ : List α) (st : ScriptState)
    (h : (runList exec (l₁ ++ l₂) st).exitCode = 0) :
    (runList exec l₁ st).exitCode = 0 ∧
      runList exec (l₁ ++ l₂) st =
        runList exec l₂ (runList exec l₁ st).state := by
  by_cases h1 : (runList exec l₁ st).exitCode = 0
  · exact ⟨h1, by rw [runList_append, if_pos h1]⟩
  · rw [runList_append, if_neg h1] at h
    exact absurd h h1

/-! ## Persistence: no script command ever deletes a file, removes a
directory or clears an installation flag -/

/-- `a ≼ b`: every file present in `a` that a script guard tests, and
every directory/installation flag set in `a`, is also present/set in
`b`. -/
structure FSLe (a b : FS) : Prop where
  envFile : a.envFile.isSome → b.envFile.isSome
  envExample : a.envExample.isSome → b.envExample.isSome
  rootPackageJson : a.rootPackageJson.isSome → b.rootPackageJson.isSome
  frontendPackageJson : a.frontendPackageJson.isSome → b.frontendPackageJson.isSome
  backendPackageJson : a.backendPackageJson.isSome → b.backendPackageJson.isSome
  sharedPackageJson : a.sharedPackageJson.isSome → b.sharedPackageJson.isSome
  prettierrc : a.prettierrc.isSome → b.prettierrc.isSome
  eslintrcJs : a.eslintrcJs.isSome → b.eslintrcJs.isSome
  frontendDir : a.frontendDir = true → b.frontendDir = true
  backendDir : a.backendDir = true → b.backendDir = true
  sharedDir : a.sharedDir = true → b.sharedDir = true
  rootNodeModules : a.rootNodeModules = true → b.rootNodeModules = true
  frontendNodeModules : a.frontendNodeModules = true → b.frontendNodeModules = true
  backendNodeModules : a.backendNodeModules = true → b.backendNodeModules = true
  sharedNodeModules : a.sharedNodeModules = true → b.sharedNodeModules = true
  aptCacheUpdated : a.aptCacheUpdated = true → b.aptCacheUpdated = true
  systemDepsInstalled : a.systemDepsInstalled = true → b.systemDepsInstalled = true

theorem FSLe.refl (a : FS) : FSLe a a :=
  ⟨id, id, id, id, id, id, id, id, id, id, id, id, id, id, id, id, id⟩

theorem FSLe.trans {a b c : FS} (h1 : FSLe a b) (h2 : FSLe b c) : FSLe a c :=
  ⟨h2.envFile ∘ h1.envFile, h2.envExample ∘ h1.envExample,
   h2.rootPackageJson ∘ h1.rootPackageJson,
   h2.frontendPackageJson ∘ h1.frontendPackageJson,
   h2.backendPackageJson ∘ h1.backendPackageJson,
   h2.sharedPackageJson ∘ h1.sharedPackageJson,
   h2.prettierrc ∘ h1.prettierrc, h2.eslintrcJs ∘ h1.eslintrcJs,
   h2.frontendDir ∘ h1.frontendDir, h2.backendDir ∘ h1.backendDir,
   h2.sharedDir ∘ h1.sharedDir, h2.rootNodeModules ∘ h1.rootNodeModules,
   h2.frontendNodeModules ∘ h1.frontendNodeModules,
   h2.backendNodeModules ∘ h1.backendNodeModules,
   h2.sharedNodeModules ∘ h1.sharedNodeModules,
   h2.aptCacheUpdated ∘ h1.aptCacheUpdated,
   h2.systemDepsInstalled ∘ h1.systemDepsInstalled⟩

theorem setFile_le (f : FileId) (c : Content) (fs : FS) : FSLe fs (setFile f c fs) := by
  cases f <;> constructor <;> simp [setFile]

theorem setDir_le (d : DirId) (fs : FS) : FSLe fs (setDir d fs) := by
  cases d <;> constructor <;> simp [setDir]

theorem setNM_le (l : Loc) (fs : FS) : FSLe fs (setNM l fs) := by
  cases l <;> constructor <;> simp [setNM]

theorem execB_le (b : BStep) (st : ScriptState) :
    FSLe st.fs (execB b st).state.fs := by
  cases b with
  | echoMsg m => exact FSLe.refl _
  | aptUpdate => constructor <;> simp [execB, sOk]
  | aptInstall ps => constructor <;> simp [execB, sOk]
  | npmInstall l =>
    rw [execB]
    cases fileOf (pkgFileOf l) st.fs with
    | none => exact FSLe.refl _
    | some c => exact setNM_le l st.fs
  | npmInstallPkgs l dev ps =>
    exact FSLe.trans (setFile_le _ _ _) (setNM_le l _)
  | npmPkgSet l k v =>
    rw [execB]
    cases fileOf (pkgFileOf l) st.fs with
    | none => exact FSLe.refl _
    | some c => exact setFile_le _ _ _
  | npmInitY l => exact setFile_le _ _ _
  | createNextApp => constructor <;> simp [execB, sOk]
  | copyFile src dst =>
    rw [execB]
    cases fileOf src st.fs with
    | none => exact FSLe.refl _
    | some c => exact setFile_le _ _ _
  | writeHeredoc f t => exact setFile_le _ _ _
  | mkdirP d => exact setDir_le _ _

theorem runList_le {α : Type} (exec : α → ScriptState → SRes)
    (hexec : ∀ c st, FSLe st.fs (exec c st).state.fs) :
    ∀ (l : List α) (st : ScriptState), FSLe st.fs ((runList exec l st).state.fs) := by
  intro l
  induction l with
  | nil => intro st; exact FSLe.refl _
  | cons c cs ih =>
    intro st
    rw [runList_cons]
    by_cases h : (exec c st).exitCode = 0
    · rw [if_pos h]
      exact FSLe.trans (hexec c st) (ih _)
    · rw [if_neg h]
      exact hexec c st

theorem runBs_le (l : List BStep) (st : ScriptState) :
    FSLe st.fs ((runBs l st).state.fs) :=
  runList_le execB execB_le l st

theorem execCmd_le (env : Env) (c : Cmd) (st : ScriptState) :
    FSLe st.fs ((execCmd env c st).state.fs) := by
  cases c with
  | basic b => exact execB_le b st
  | checkNodeInstalled =>
    rw [execCmd]
    cases env.node with
    | none => exact FSLe.refl _
    | some v => exact FSLe.refl _
  | checkNodeVersion =>
    rw [execCmd]
    split
    · exact FSLe.refl _
    · split
      · exact FSLe.refl _
      · split
        · exact FSLe.refl _
        · exact FSLe.refl _
  | echoNodeVersion => exact FSLe.refl _
  | ifNotFile f thenB elseB =>
    rw [execCmd]
    by_cases h : (fileOf f st.fs).isNone
    · rw [if_pos h]; exact runBs_le thenB st
    · rw [if_neg h]; exact runBs_le elseB st
  | ifNotNodeModules l thenB elseB =>
    rw [execCmd]
    cases h : nmOf l st.fs
    · simp only [h, Bool.false_eq_true, if_false]
      exact runBs_le thenB st
    · simp only [h, if_true]
      exact runBs_le elseB st
  | cd d =>
    rw [execCmd]
    cases h : dirOf d st.fs
    · simp only [h, Bool.false_eq_true, if_false]
      exact FSLe.refl _
    · simp only [h, if_true]
      exact FSLe.refl _
  | cdUp => exact FSLe.refl _

theorem runCmds_le (env : Env) (l : List Cmd) (st : ScriptState) :
    FSLe st.fs ((runCmds env l st).state.fs) :=
  runList_le (execCmd env) (execCmd_le env) l st

/-! ## Completed-state predicates and skip (re-run) lemmas -/

/-- Everything `setup.sh` needs in place for a run that only skips:
all guard targets present, `package.json` at the root, and root
dependencies installed. -/
structure SetupDone (fs : FS) : Prop where
  envFile : fs.envFile.isSome
  frontendPackageJson : fs.frontendPackageJson.isSome
  backendPackageJson : fs.backendPackageJson.isSome
  rootPackageJson : fs.rootPackageJson.isSome
  rootNodeModules : fs.rootNodeModules = true

/-- Everything the Codespace script needs in place for a run that only
skips. -/
structure CodespaceDone (fs : FS) : Prop where
  envFile : fs.envFile.isSome
  rootPackageJson : fs.rootPackageJson.isSome
  rootNodeModules : fs.rootNodeModules = true
  frontendDir : fs.frontendDir = true
  backendDir : fs.backendDir = true
  sharedDir : fs.sharedDir = true
  frontendNodeModules : fs.frontendNodeModules = true
  backendNodeModules : fs.backendNodeModules = true
  sharedPackageJson : fs.sharedPackageJson.isSome
  prettierrc : fs.prettierrc.isSome
  eslintrcJs : fs.eslintrcJs.isSome
  aptCacheUpdated : fs.aptCacheUpdated = true
  systemDepsInstalled : fs.systemDepsInstalled = true

/-- The lines echoed by a fully-skipping `setup.sh` re-run. -/
def setupSkipLog (v : List Char) : List Msg :=
  [.setupStart, .nodeVersionOkWith v, .installingRootDeps, .envAlreadyExists,
   .setupComplete, .blank, .nextStepsHeader, .setupNext1, .setupNext2,
   .setupNext3, .setupNext4, .blank, .checkReadme]

/-- A `setup.sh` run from a completed state (and a Node.js that passes the
check) succeeds, leaves the filesystem untouched and only echoes. -/
theorem setup_skip (env : Env) (fs : FS) (log : List Msg) (v : List Char) (m : Nat)
    (hv : env.node = some v) (hp : parseNat (nodeMajorString v) = some m)
    (hm : ¬ m < 18) (hd : SetupDone fs) :
    runSetup env ⟨fs, log⟩ = ⟨0, ⟨fs, log ++ setupSkipLog v⟩⟩ := by
  obtain ⟨fEnv, fEx, fRoot, fFr, fBa, fBt, fBsi, fSp, fSt, fSti, fSit, fSui,
    fPr, fEs, dFr, dBa, dSh, dBs, dSt, dSu, nmR, nmF, nmB, nmS, scaf, apt,
    sys⟩ := fs
  obtain ⟨e, he⟩ : ∃ c, fEnv = some c := Option.isSome_iff_exists.mp hd.envFile
  obtain ⟨fp, hfp⟩ : ∃ c, fFr = some c :=
    Option.isSome_iff_exists.mp hd.frontendPackageJson
  obtain ⟨bp, hbp⟩ : ∃ c, fBa = some c :=
    Option.isSome_iff_exists.mp hd.backendPackageJson
  obtain ⟨rp, hrp⟩ : ∃ c, fRoot = some c :=
    Option.isSome_iff_exists.mp hd.rootPackageJson
  have hnm : nmR = true := hd.rootNodeModules
  subst he hfp hbp hrp hnm
  simp [runSetup, setupCmds, setupChecks, setupRootInstall, setupEnvFile,
        setupFrontendPkg, setupBackendPkg, setupOutro, runCmds, runList,
        execCmd, execB, runBs, sOk, addLog, fileOf, pkgFileOf, setNM,
        hv, hp, hm, setupSkipLog]

/-- The lines echoed by a fully-skipping Codespace re-run. -/
def csSkipLog : List Msg :=
  [.csStart, .csInstallingSysDeps, .csEnvExists, .csInstallingRootDeps,
   .csSettingUpFrontend, .csSettingUpBackend, .csSettingUpShared,
   .csCreatingDevConfig, .csComplete] ++ (List.range 18).map .csOutro

/-- A Codespace-script run from a completed state succeeds, leaves the
filesystem untouched and only echoes. -/
theorem codespace_skip (env : Env) (fs : FS) (log : List Msg)
    (hd : CodespaceDone fs) :
    runCodespace env ⟨fs, log⟩ = ⟨0, ⟨fs, log ++ csSkipLog⟩⟩ := by
  obtain ⟨fEnv, fEx, fRoot, fFr, fBa, fBt, fBsi, fSp, fSt, fSti, fSit, fSui,
    fPr, fEs, dFr, dBa, dSh, dBs, dSt, dSu, nmR, nmF, nmB, nmS, scaf, apt,
    sys⟩ := fs
  obtain ⟨e, he⟩ : ∃ c, fEnv = some c := Option.isSome_iff_exists.mp hd.envFile
  obtain ⟨rp, hrp⟩ : ∃ c, fRoot = some c :=
    Option.isSome_iff_exists.mp hd.rootPackageJson
  obtain ⟨sp, hsp⟩ : ∃ c, fSp = some c :=
    Option.isSome_iff_exists.mp hd.sharedPackageJson
  obtain ⟨pr, hpr⟩ : ∃ c, fPr = some c :=
    Option.isSome_iff_exists.mp hd.prettierrc
  obtain ⟨es, hes⟩ : ∃ c, fEs = some c :=
    Option.isSome_iff_exists.mp hd.eslintrcJs
  have h1 : nmR = true := hd.rootNodeModules
  have h2 : dFr = true := hd.frontendDir
  have h3 : dBa = true := hd.backendDir
  have h4 : dSh = true := hd.sharedDir
  have h5 : nmF = true := hd.frontendNodeModules
  have h6 : nmB = true := hd.backendNodeModules
  have h7 : apt = true := hd.aptCacheUpdated
  have h8 : sys = true := hd.systemDepsInstalled
  subst he hrp hsp hpr hes h1 h2 h3 h4 h5 h6 h7 h8
  simp [runCodespace, codespaceCmds, csPrelude, csEnvSetup, csRootInstall,
        csFrontendSetup, csBackendSetup, csSharedSetup, csDevConfig,
        csOutroCmds, runCmds, runList, execCmd, execB, runBs, sOk, addLog,
        fileOf, pkgFileOf, dirOf, nmOf, setNM, csSkipLog]
  rfl

/-! ## What a completed first run establishes -/

/-- A successful `setup.sh` run presupposes an installed Node.js whose
parsed major version is at least 18. -/
theorem setup_env_pass (env : Env) (st : ScriptState)
    (h : (runSetup env st).exitCode = 0) :
    ∃ v m, env.node = some v ∧ parseNat (nodeMajorString v) = some m ∧
      ¬ m < 18 := by
  cases hv : env.node with
  | none =>
    exfalso
    simp [runSetup, setupCmds, setupChecks, setupRootInstall, setupEnvFile,
          setupFrontendPkg, setupBackendPkg, setupOutro, runCmds, runList,
          execCmd, execB, runBs, sOk, addLog, hv] at h
  | some v =>
    cases hp : parseNat (nodeMajorString v) with
    | none =>
      exfalso
      simp [runSetup, setupCmds, setupChecks, setupRootInstall, setupEnvFile,
            setupFrontendPkg, setupBackendPkg, setupOutro, runCmds, runList,
            execCmd, execB, runBs, sOk, addLog, hv, hp] at h
    | some m =>
      by_cases hm : m < 18
      · exfalso
        simp [runSetup, setupCmds, setupChecks, setupRootInstall,
              setupEnvFile, setupFrontendPkg, setupBackendPkg, setupOutro,
              runCmds, runList, execCmd, execB, runBs, sOk, addLog, hv, hp,
              hm] at h
      · exact ⟨v, m, rfl, hp, hm⟩

/-- A successful `setup.sh` run leaves all its guard targets present, the
root `package.json` in place and root dependencies installed. -/
theorem setup_post (env : Env) (fs : FS) (log : List Msg)
    (h : (runSetup env ⟨fs, log⟩).exitCode = 0) :
    SetupDone ((runSetup env ⟨fs, log⟩).state.fs) := by
  obtain ⟨v, m, hv, hp, hm⟩ := setup_env_pass env ⟨fs, log⟩ h
  obtain ⟨fEnv, fEx, fRoot, fFr, fBa, fBt, fBsi, fSp, fSt, fSti, fSit, fSui,
    fPr, fEs, dFr, dBa, dSh, dBs, dSt, dSu, nmR, nmF, nmB, nmS, scaf, apt,
    sys⟩ := fs
  rcases fRoot with _ | rp <;> rcases fEnv with _ | e <;>
    rcases fEx with _ | ex <;> rcases fFr with _ | fp <;> rcases fBa with _ | bp <;>
    simp [runSetup, setupCmds, setupChecks, setupRootInstall, setupEnvFile,
          setupFrontendPkg, setupBackendPkg, setupOutro, runCmds, runList,
          execCmd, execB, runBs, sOk, addLog, fileOf, pkgFileOf, setNM,
          setFile, setDir, hv, hp, hm] at h ⊢ <;>
    exact ⟨by simp, by simp, by simp, by simp, by simp⟩

/-- `apt-get update` and `apt-get install` always succeed and mark the
package cache and the system dependencies installed. -/
theorem csPrelude_run (env : Env) (st : ScriptState) :
    runCmds env csPrelude st =
      ⟨0, ⟨{ { st.fs with aptCacheUpdated := true } with
               systemDepsInstalled := true },
           st.log ++ [.csStart, .csInstallingSysDeps]⟩⟩ := by
  simp [csPrelude, runCmds, runList, execCmd, execB, sOk, addLog]

/-- The closing banner only echoes. -/
theorem csOutro_run (env : Env) (st : ScriptState) :
    runCmds env csOutroCmds st =
      ⟨0, ⟨st.fs, st.log ++ (Msg.csComplete ::
        (List.range 18).map Msg.csOutro)⟩⟩ := by
  simp [csOutroCmds, runCmds, runList, execCmd, execB, sOk, addLog]
  rfl

/-- If the guarded `.env` block succeeds, `.env` exists afterwards. -/
theorem csEnvSetup_post (env : Env) (st : ScriptState)
    (h : (runCmds env csEnvSetup st).exitCode = 0) :
    ((runCmds env csEnvSetup st).state.fs).envFile.isSome := by
  cases hc : st.fs.envFile with
  | some c =>
    simp [csEnvSetup, runCmds, runList, execCmd, execB, runBs, sOk, addLog,
          fileOf, hc]
  | none =>
    cases he : st.fs.envExample with
    | none =>
      exfalso
      simp [csEnvSetup, runCmds, runList, execCmd, execB, runBs, sOk,
            addLog, fileOf, hc, he] at h
    | some c =>
      simp [csEnvSetup, runCmds, runList, execCmd, execB, runBs, sOk,
            addLog, fileOf, setFile, hc, he]

/-- If the root `npm install` block succeeds, the root `package.json` was
present and root dependencies are installed afterwards. -/
theorem csRootInstall_post (env : Env) (st : ScriptState)
    (h : (runCmds env csRootInstall st).exitCode = 0) :
    ((runCmds env csRootInstall st).state.fs).rootPackageJson.isSome ∧
      ((runCmds env csRootInstall st).state.fs).rootNodeModules = true := by
  cases hr : st.fs.rootPackageJson with
  | none =>
    exfalso
    simp [csRootInstall, runCmds, runList, execCmd, execB, sOk, addLog,
          fileOf, pkgFileOf, hr] at h
  | some rp =>
    simp [csRootInstall, runCmds, runList, execCmd, execB, sOk, addLog,
          fileOf, pkgFileOf, setNM, hr]

/-- If the frontend block succeeds, the frontend directory existed and
`frontend/node_modules` exists afterwards. -/
theorem csFrontendSetup_post (env : Env) (st : ScriptState)
    (h : (runCmds env csFrontendSetup st).exitCode = 0) :
    ((runCmds env csFrontendSetup st).state.fs).frontendDir = true ∧
      ((runCmds env csFrontendSetup st).state.fs).frontendNodeModules = true := by
  cases hdir : st.fs.frontendDir with
  | false =>
    exfalso
    simp [csFrontendSetup, runCmds, runList, execCmd, execB, runBs, sOk,
          addLog, dirOf, nmOf, hdir] at h
  | true =>
    cases hnm : st.fs.frontendNodeModules with
    | true =>
      simp [csFrontendSetup, runCmds, runList, execCmd, execB, runBs, sOk,
            addLog, dirOf, nmOf, hdir, hnm]
    | false =>
      simp [csFrontendSetup, runCmds, runList, execCmd, execB, runBs, sOk,
            addLog, dirOf, nmOf, fileOf, pkgFileOf, setFile, setNM, hdir,
            hnm]

/-- If the backend block succeeds, the backend directory existed and
`backend/node_modules` exists afterwards. -/
theorem csBackendSetup_post (env : Env) (st : ScriptState)
    (h : (runCmds env csBackendSetup st).exitCode = 0) :
    ((runCmds env csBackendSetup st).state.fs).backendDir = true ∧
      ((runCmds env csBackendSetup st).state.fs).backendNodeModules = true := by
  cases hdir : st.fs.backendDir with
  | false =>
    exfalso
    simp [csBackendSetup, runCmds, runList, execCmd, execB, runBs, sOk,
          addLog, dirOf, nmOf, hdir] at h
  | true =>
    cases hnm : st.fs.backendNodeModules with
    | true =>
      simp [csBackendSetup, runCmds, runList, execCmd, execB, runBs, sOk,
            addLog, dirOf, nmOf, hdir, hnm]
    | false =>
      simp [csBackendSetup, runCmds, runList, execCmd, execB, runBs, sOk,
            addLog, dirOf, nmOf, fileOf, pkgFileOf, setFile, setDir, setNM,
            hdir, hnm]

/-- If the shared block succeeds, the shared directory existed and
`shared/package.json` exists afterwards. -/
theorem csSharedSetup_post (env : Env) (st : ScriptState)
    (h : (runCmds env csSharedSetup st).exitCode = 0) :
    ((runCmds env csSharedSetup st).state.fs).sharedDir = true ∧
      ((runCmds env csSharedSetup st).state.fs).sharedPackageJson.isSome := by
  cases hdir : st.fs.sharedDir with
  | false =>
    exfalso
    simp [csSharedSetup, runCmds, runList, execCmd, execB, runBs, sOk,
          addLog, dirOf, fileOf, hdir] at h
  | true =>
    cases hsp : st.fs.sharedPackageJson with
    | some sp =>
      simp [csSharedSetup, runCmds, runList, execCmd, execB, runBs, sOk,
            addLog, dirOf, fileOf, hdir, hsp]
    | none =>
      simp [csSharedSetup, runCmds, runList, execCmd, execB, runBs, sOk,
            addLog, dirOf, fileOf, pkgFileOf, setFile, setDir, setNM, hdir,
            hsp]

/-- If the dev-config block succeeds, `.prettierrc` and `.eslintrc.js`
exist afterwards. -/
theorem csDevConfig_post (env : Env) (st : ScriptState)
    (_h : (runCmds env csDevConfig st).exitCode = 0) :
    ((runCmds env csDevConfig st).state.fs).prettierrc.isSome ∧
      ((runCmds env csDevConfig st).state.fs).eslintrcJs.isSome := by
  cases hpr : st.fs.prettierrc with
  | some pr =>
    cases hes : st.fs.eslintrcJs with
    | some es =>
      simp [csDevConfig, runCmds, runList, execCmd, execB, runBs, sOk,
            addLog, fileOf, setFile, hpr, hes]
    | none =>
      simp [csDevConfig, runCmds, runList, execCmd, execB, runBs, sOk,
            addLog, fileOf, setFile, hpr, hes]
  | none =>
    cases hes : st.fs.eslintrcJs with
    | some es =>
      simp [csDevConfig, runCmds, runList, execCmd, execB, runBs, sOk,
            addLog, fileOf, setFile, hpr, hes]
    | none =>
      simp [csDevConfig, runCmds, runList, execCmd, execB, runBs, sOk,
            addLog, fileOf, setFile, hpr, hes]

theorem runCmds_append_exit0 (env : Env) (l₁ l₂ : List Cmd) (st : ScriptState)
    (h : (runCmds env (l₁ ++ l₂) st).exitCode = 0) :
    (runCmds env l₁ st).exitCode = 0 ∧
      runCmds env (l₁ ++ l₂) st =
        runCmds env l₂ ((runCmds env l₁ st).state) :=
  runList_append_exit0 (execCmd env) l₁ l₂ st h

set_option maxHeartbeats 1000000 in
/-- A successful Codespace run leaves all its guard targets present, the
directories it `cd`s into in place, and every installation flag set. -/
theorem codespace_post (env : Env) (st : ScriptState)
    (h : (runCodespace env st).exitCode = 0) :
    CodespaceDone ((runCodespace env st).state.fs) := by
  have hsplit : codespaceCmds =
      csPrelude ++ (csEnvSetup ++ (csRootInstall ++ (csFrontendSetup ++
        (csBackendSetup ++ (csSharedSetup ++ (csDevConfig ++ csOutroCmds)))))) := by
    simp [codespaceCmds, List.append_assoc]
  have h' : (runCmds env (csPrelude ++ (csEnvSetup ++ (csRootInstall ++
      (csFrontendSetup ++ (csBackendSetup ++ (csSharedSetup ++
      (csDevConfig ++ csOutroCmds))))))) st).exitCode = 0 := by
    rw [← hsplit]; exact h
  obtain ⟨h1, e1⟩ := runCmds_append_exit0 env csPrelude _ st h'
  rw [e1] at h'
  obtain ⟨h2, e2⟩ := runCmds_append_exit0 env csEnvSetup _ _ h'
  rw [e2] at h'
  obtain ⟨h3, e3⟩ := runCmds_append_exit0 env csRootInstall _ _ h'
  rw [e3] at h'
  obtain ⟨h4, e4⟩ := runCmds_append_exit0 env csFrontendSetup _ _ h'
  rw [e4] at h'
  obtain ⟨h5, e5⟩ := runCmds_append_exit0 env csBackendSetup _ _ h'
  rw [e5] at h'
  obtain ⟨h6, e6⟩ := runCmds_append_exit0 env csSharedSetup _ _ h'
  rw [e6] at h'
  obtain ⟨h7, e7⟩ := runCmds_append_exit0 env csDevConfig _ _ h'
  rw [e7] at h'
  have hcast : runCodespace env st =
      runCmds env (csPrelude ++ (csEnvSetup ++ (csRootInstall ++
        (csFrontendSetup ++ (csBackendSetup ++ (csSharedSetup ++
        (csDevConfig ++ csOutroCmds))))))) st := by
    rw [← hsplit]
    rfl
  obtain ⟨T1, hT1⟩ : ∃ x, (runCmds env csPrelude st).state = x := ⟨_, rfl⟩
  rw [hT1] at h2 h3 h4 h5 h6 h7 e1 e2 e3 e4 e5 e6 e7
  obtain ⟨T2, hT2⟩ : ∃ x, (runCmds env csEnvSetup T1).state = x := ⟨_, rfl⟩
  rw [hT2] at h3 h4 h5 h6 h7 e2 e3 e4 e5 e6 e7
  obtain ⟨T3, hT3⟩ : ∃ x, (runCmds env csRootInstall T2).state = x := ⟨_, rfl⟩
  rw [hT3] at h4 h5 h6 h7 e3 e4 e5 e6 e7
  obtain ⟨T4, hT4⟩ : ∃ x, (runCmds env csFrontendSetup T3).state = x := ⟨_, rfl⟩
  rw [hT4] at h5 h6 h7 e4 e5 e6 e7
  obtain ⟨T5, hT5⟩ : ∃ x, (runCmds env csBackendSetup T4).state = x := ⟨_, rfl⟩
  rw [hT5] at h6 h7 e5 e6 e7
  obtain ⟨T6, hT6⟩ : ∃ x, (runCmds env csSharedSetup T5).state = x := ⟨_, rfl⟩
  rw [hT6] at h7 e6 e7
  obtain ⟨T7, hT7⟩ : ∃ x, (runCmds env csDevConfig T6).state = x := ⟨_, rfl⟩
  rw [hT7] at e7
  have p2 := csEnvSetup_post env T1 h2
  rw [hT2] at p2
  have p3 := csRootInstall_post env T2 h3
  rw [hT3] at p3
  have p4 := csFrontendSetup_post env T3 h4
  rw [hT4] at p4
  have p5 := csBackendSetup_post env T4 h5
  rw [hT5] at p5
  have p6 := csSharedSetup_post env T5 h6
  rw [hT6] at p6
  have p7 := csDevConfig_post env T6 h7
  rw [hT7] at p7
  rw [csPrelude_run env st] at hT1
  have hapt : T1.fs.aptCacheUpdated = true := by rw [← hT1]
  have hsys : T1.fs.systemDepsInstalled = true := by rw [← hT1]
  have m1 : FSLe T1.fs T2.fs := by
    rw [← hT2]; exact runCmds_le env csEnvSetup T1
  have m2 : FSLe T2.fs T3.fs := by
    rw [← hT3]; exact runCmds_le env csRootInstall T2
  have m3 : FSLe T3.fs T4.fs := by
    rw [← hT4]; exact runCmds_le env csFrontendSetup T3
  have m4 : FSLe T4.fs T5.fs := by
    rw [← hT5]; exact runCmds_le env csBackendSetup T4
  have m5 : FSLe T5.fs T6.fs := by
    rw [← hT6]; exact runCmds_le env csSharedSetup T5
  have m6 : FSLe T6.fs T7.fs := by
    rw [← hT7]; exact runCmds_le env csDevConfig T6
  have l6 : FSLe T6.fs T7.fs := m6
  have l5 : FSLe T5.fs T7.fs := FSLe.trans m5 l6
  have l4 : FSLe T4.fs T7.fs := FSLe.trans m4 l5
  have l3 : FSLe T3.fs T7.fs := FSLe.trans m3 l4
  have l2 : FSLe T2.fs T7.fs := FSLe.trans m2 l3
  have l1 : FSLe T1.fs T7.fs := FSLe.trans m1 l2
  have hwfin : runCodespace env st = runCmds env csOutroCmds T7 :=
    hcast.trans (e1.trans (e2.trans (e3.trans (e4.trans (e5.trans
      (e6.trans e7))))))
  rw [hwfin, csOutro_run]
  exact ⟨l2.envFile p2, l3.rootPackageJson p3.1, l3.rootNodeModules p3.2,
         l4.frontendDir p4.1, l5.backendDir p5.1, l6.sharedDir p6.1,
         l4.frontendNodeModules p4.2, l5.backendNodeModules p5.2,
         l6.sharedPackageJson p6.2, p7.1, p7.2,
         l1.aptCacheUpdated hapt, l1.systemDepsInstalled hsys⟩

/-! ## Additional helper lemmas and concrete fixtures -/

theorem runCmds_cons (env : Env) (c : Cmd) (cs : List Cmd) (st : ScriptState) :
    runCmds env (c :: cs) st =
      (if (execCmd env c st).exitCode = 0
       then runCmds env cs (execCmd env c st).state
       else execCmd env c st) := rfl

theorem runCmds_append (env : Env) (l₁ l₂ : List Cmd) (st : ScriptState) :
    runCmds env (l₁ ++ l₂) st =
      (if (runCmds env l₁ st).exitCode = 0
       then runCmds env l₂ (runCmds env l₁ st).state
       else runCmds env l₁ st) :=
  runList_append (execCmd env) l₁ l₂ st

/-- The commands of `setup.sh` after the banner and the two Node.js
checks. -/
def setupAfterChecks : List Cmd :=
  setupRootInstall ++ setupEnvFile ++ setupFrontendPkg ++ setupBackendPkg ++
    setupOutro

/-- Banner plus passing checks reduce to two echoed lines and an unchanged
filesystem. -/
theorem setupChecks_run (env : Env) (st : ScriptState) (v : List Char)
    (m : Nat) (hv : env.node = some v)
    (hp : parseNat (nodeMajorString v) = some m) (hm : ¬ m < 18) :
    runCmds env setupChecks st =
      ⟨0, ⟨st.fs, st.log ++ [.setupStart, .nodeVersionOkWith v]⟩⟩ := by
  simp [setupChecks, runCmds, runList, execCmd, execB, sOk, addLog, hv, hp,
        hm]

theorem execCmd_node_only (n : Option (List Char)) (a₁ a₂ : List String)
    (c : Cmd) (st : ScriptState) :
    execCmd ⟨n, a₁⟩ c st = execCmd ⟨n, a₂⟩ c st := by
  cases c <;> rfl

theorem runCmds_node_only (n : Option (List Char)) (a₁ a₂ : List String)
    (l : List Cmd) (st : ScriptState) :
    runCmds ⟨n, a₁⟩ l st = runCmds ⟨n, a₂⟩ l st := by
  induction l generalizing st with
  | nil => rfl
  | cons c cs ih =>
    rw [runCmds_cons, runCmds_cons, execCmd_node_only n a₁ a₂ c st]
    split
    · exact ih _
    · rfl

theorem execCmd_env_free (c : Cmd) (hc : cmdReadsEnv c = false)
    (env₁ env₂ : Env) (st : ScriptState) :
    execCmd env₁ c st = execCmd env₂ c st := by
  cases c <;> first
    | rfl
    | (exfalso; simp [cmdReadsEnv] at hc)

theorem runCmds_env_free (l : List Cmd)
    (hl : (l.all fun c => !cmdReadsEnv c) = true) (env₁ env₂ : Env)
    (st : ScriptState) :
    runCmds env₁ l st = runCmds env₂ l st := by
  induction l generalizing st with
  | nil => rfl
  | cons c cs ih =>
    simp only [List.all_cons, Bool.and_eq_true, Bool.not_eq_true'] at hl
    rw [runCmds_cons, runCmds_cons, execCmd_env_free c hl.1 env₁ env₂ st]
    split
    · exact ih hl.2 _
    · rfl

/-- Package-manager installation commands: the only commands of the
scripts that fetch anything over the network. -/
def bstepPkgManagerInstall : BStep → Bool
  | .aptUpdate => true
  | .aptInstall _ => true
  | .npmInstall _ => true
  | .npmInstallPkgs _ _ _ => true
  | .createNextApp => true
  | _ => false

def cmdIsPackageInstall (c : Cmd) : Bool :=
  (cmdBSteps c).any bstepPkgManagerInstall

/-- A filesystem with nothing in place. -/
def emptyFS : FS :=
  ⟨none, none, none, none, none, none, none, none, none, none, none, none,
   none, none, false, false, false, false, false, false, false, false,
   false, false, false, false, false⟩

/-- The checked-out repository: `.env.example` and the root `package.json`
present, the `frontend/`, `backend/` and `shared/` directories in place,
nothing yet installed. -/
def readyFS : FS :=
  { emptyFS with
    envExample := some (.user 0)
    rootPackageJson := some (.user 1)
    frontendDir := true
    backendDir := true
    sharedDir := true }

/-- `node -v` output of a Node.js 20 installation. -/
def v20 : List Char := ['v', '2', '0', '.', '1', '0', '.', '0']

/-- `node -v` output of a Node.js 16 installation. -/
def v16 : List Char := ['v', '1', '6', '.', '5', '.', '1']

def wEnv : Env := ⟨some v20, []⟩

def wEnvOld : Env := ⟨some v16, []⟩

def wEnvNone : Env := ⟨none, []⟩

def wSt : ScriptState := ⟨readyFS, []⟩

/-- A state in which `.env` and `.env.example` are both missing but the
root `package.json` is present: `setup.sh` passes its version check and
then dies at `cp .env.example .env`. -/
def cSt : ScriptState := ⟨{ emptyFS with rootPackageJson := some (.user 1) }, []⟩

/-! ## The claims -/

/-- C1: running either setup script twice in succession, from any starting
filesystem state in which the first run completes, produces the same
on-disk state as running it once — every file-creation step is guarded by
an existence check and a re-run skips steps already completed.  The
re-run succeeds and its final filesystem equals the first run's final
filesystem, whatever was in the log. -/
theorem claim_C1_idempotent (env₁ env₂ : Env) (st₁ st₂ : ScriptState)
    (h₁ : (runSetup env₁ st₁).exitCode = 0)
    (h₂ : (runCodespace env₂ st₂).exitCode = 0) (log₁ log₂ : List Msg) :
    (runSetup env₁ ⟨(runSetup env₁ st₁).state.fs, log₁⟩).exitCode = 0 ∧
    (runSetup env₁ ⟨(runSetup env₁ st₁).state.fs, log₁⟩).state.fs =
      (runSetup env₁ st₁).state.fs ∧
    (runCodespace env₂ ⟨(runCodespace env₂ st₂).state.fs, log₂⟩).exitCode = 0 ∧
    (runCodespace env₂ ⟨(runCodespace env₂ st₂).state.fs, log₂⟩).state.fs =
      (runCodespace env₂ st₂).state.fs := by
  obtain ⟨v, m, hv, hp, hm⟩ := setup_env_pass env₁ st₁ h₁
  have hd : SetupDone ((runSetup env₁ st₁).state.fs) :=
    setup_post env₁ st₁.fs st₁.log h₁
  have hskip := setup_skip env₁ ((runSetup env₁ st₁).state.fs) log₁ v m hv hp
    hm hd
  have hcd : CodespaceDone ((runCodespace env₂ st₂).state.fs) :=
    codespace_post env₂ st₂ h₂
  have hcskip := codespace_skip env₂ ((runCodespace env₂ st₂).state.fs) log₂
    hcd
  exact ⟨by rw [hskip], by rw [hskip], by rw [hcskip], by rw [hcskip]⟩

theorem claim_C1_witness :
    (runSetup wEnv wSt).exitCode = 0 ∧
    (runCodespace wEnv wSt).exitCode = 0 ∧
    (runSetup wEnv ⟨(runSetup wEnv wSt).state.fs, []⟩).state.fs =
      (runSetup wEnv wSt).state.fs ∧
    (runCodespace wEnv ⟨(runCodespace wEnv wSt).state.fs, []⟩).state.fs =
      (runCodespace wEnv wSt).state.fs := by
  have h₁ : (runSetup wEnv wSt).exitCode = 0 := by rfl
  have h₂ : (runCodespace wEnv wSt).exitCode = 0 := by rfl
  obtain ⟨-, hA, -, hB⟩ := claim_C1_idempotent wEnv wEnv wSt wSt h₁ h₂ [] []
  exact ⟨h₁, h₂, hA, hB⟩

/-- C2: `setup.sh` exits non-zero and echoes an error whenever Node.js is
missing or its major version is below 18; when the precondition holds it
does not exit at the version check but continues with the remaining
commands. -/
theorem claim_C2_version_precondition (env : Env) (st : ScriptState) :
    (env.node = none →
      (runSetup env st).exitCode ≠ 0 ∧
        Msg.nodeMissingErr ∈ (runSetup env st).state.log) ∧
    (∀ v m, env.node = some v → parseNat (nodeMajorString v) = some m →
      m < 18 →
      (runSetup env st).exitCode ≠ 0 ∧
        Msg.nodeVersionErrWith v ∈ (runSetup env st).state.log) ∧
    (∀ v m, env.node = some v → parseNat (nodeMajorString v) = some m →
      ¬ m < 18 →
      runSetup env st =
        runCmds env setupAfterChecks
          ⟨st.fs, st.log ++ [.setupStart, .nodeVersionOkWith v]⟩) := by
  refine ⟨fun hn => ?_, fun v m hv hp hm => ?_, fun v m hv hp hm => ?_⟩
  · constructor <;>
      simp [runSetup, setupCmds, setupChecks, setupRootInstall, setupEnvFile,
            setupFrontendPkg, setupBackendPkg, setupOutro, runCmds, runList,
            execCmd, execB, sOk, addLog, hn]
  · constructor <;>
      simp [runSetup, setupCmds, setupChecks, setupRootInstall, setupEnvFile,
            setupFrontendPkg, setupBackendPkg, setupOutro, runCmds, runList,
            execCmd, execB, sOk, addLog, hv, hp, hm]
  · have hsp : setupCmds = setupChecks ++ setupAfterChecks := by
      simp [setupCmds, setupAfterChecks, List.append_assoc]
    rw [runSetup, hsp, runCmds_append, setupChecks_run env st v m hv hp hm]
    rfl

theorem claim_C2_witness :
    ((runSetup wEnvNone wSt).exitCode ≠ 0 ∧
      Msg.nodeMissingErr ∈ (runSetup wEnvNone wSt).state.log) ∧
    ((runSetup wEnvOld wSt).exitCode ≠ 0 ∧
      Msg.nodeVersionErrWith v16 ∈ (runSetup wEnvOld wSt).state.log) ∧
    runSetup wEnv wSt =
      runCmds wEnv setupAfterChecks
        ⟨wSt.fs, wSt.log ++ [.setupStart, .nodeVersionOkWith v20]⟩ :=
  ⟨(claim_C2_version_precondition wEnvNone wSt).1 rfl,
   (claim_C2_version_precondition wEnvOld wSt).2.1 v16 16 rfl (by rfl)
     (by decide),
   (claim_C2_version_precondition wEnv wSt).2.2 v20 20 rfl (by rfl)
     (by decide)⟩

/-- C3: when the version precondition is unmet (Node.js missing or major
version below 18), `setup.sh` performs no file writes before exiting
non-zero — the filesystem after the failed run equals the one before. -/
theorem claim_C3_no_writes_on_failed_precondition (env : Env)
    (st : ScriptState)
    (h : env.node = none ∨ ∃ v m, env.node = some v ∧
      parseNat (nodeMajorString v) = some m ∧ m < 18) :
    (runSetup env st).state.fs = st.fs ∧ (runSetup env st).exitCode ≠ 0 := by
  rcases h with hn | ⟨v, m, hv, hp, hm⟩
  · constructor <;>
      simp [runSetup, setupCmds, setupChecks, setupRootInstall, setupEnvFile,
            setupFrontendPkg, setupBackendPkg, setupOutro, runCmds, runList,
            execCmd, execB, sOk, addLog, hn]
  · constructor <;>
      simp [runSetup, setupCmds, setupChecks, setupRootInstall, setupEnvFile,
            setupFrontendPkg, setupBackendPkg, setupOutro, runCmds, runList,
            execCmd, execB, sOk, addLog, hv, hp, hm]

theorem claim_C3_witness :
    (runSetup wEnvOld wSt).state.fs = wSt.fs ∧
      (runSetup wEnvOld wSt).exitCode ≠ 0 :=
  claim_C3_no_writes_on_failed_precondition wEnvOld wSt
    (Or.inr ⟨v16, 16, rfl, by rfl, by decide⟩)

/-- C4: for every children value, including the empty one, `RootLayout`
returns its children unchanged inside the fixed static shell — an `html`
element with `lang="en"` whose single child is a `body` with class
`antialiased` whose single child is the given content — with no
conditional branch and no error path. -/
theorem claim_C4_layout (ch : Html) :
    slotOf (RootLayout ch) = some ch ∧
    tagOf (RootLayout ch) = some "html" ∧
    attrsOf (RootLayout ch) = [("lang", "en")] ∧
    (onlyChild (RootLayout ch)).map tagOf = some (some "body") ∧
    (onlyChild (RootLayout ch)).map attrsOf = some [("class", "antialiased")] ∧
    slotOf (RootLayout .empty) = some .empty :=
  ⟨rfl, rfl, rfl, rfl, rfl, rfl⟩

/-- C5 as stated is false: both provisioning scripts contain
package-manager commands (`npm install`, `apt-get update`) that perform
network calls. -/
theorem claim_C5_counterexample :
    Cmd.basic (BStep.npmInstall .root) ∈ setupCmds ∧
    cmdUsesNetwork (Cmd.basic (BStep.npmInstall .root)) = true ∧
    Cmd.basic BStep.aptUpdate ∈ codespaceCmds ∧
    cmdUsesNetwork (Cmd.basic BStep.aptUpdate) = true := by
  refine ⟨by decide, rfl, by decide, rfl⟩

/-- C5 amended: no command of either script performs a database connection
or an authentication check, and the layout wrapper only constructs static
markup; the scripts do perform network access, but exclusively through
package-manager installation commands — exactly one such command in
`setup.sh` and six in the Codespace script. -/
theorem claim_C5_amended_no_db_auth (ch : Html) :
    ((setupCmds ++ codespaceCmds).all fun c => !cmdDatabaseOrAuth c) = true ∧
    ((setupCmds ++ codespaceCmds).all fun c =>
      !cmdUsesNetwork c || cmdIsPackageInstall c) = true ∧
    (setupCmds.filter cmdUsesNetwork).length = 1 ∧
    (codespaceCmds.filter cmdUsesNetwork).length = 6 ∧
    RootLayout ch = Html.element "html" [("lang", "en")]
      [Html.element "body" [("class", "antialiased")] [ch]] :=
  ⟨by decide, by decide, by decide, by decide, rfl⟩

/-- C6 as stated is false: with Node.js 20 installed but `.env` and
`.env.example` both missing, `setup.sh` passes the version check (the log
records the success banner and no version error) and still terminates
non-zero — `cp .env.example .env` fails under `set -e`. -/
theorem claim_C6_counterexample :
    (runSetup wEnv cSt).exitCode = 1 ∧
    (runSetup wEnv cSt).state.log =
      [.setupStart, .nodeVersionOkWith v20, .installingRootDeps,
       .creatingEnvFile] :=
  ⟨rfl, rfl⟩

/-- C6 amended: every file-creating command of both scripts sits inside an
existence-guarded block, so a re-run skips completed work; but guarded
blocks do not make failure impossible — a step after the version check can
still abort the script, as the concrete `cp` failure shows. -/
theorem claim_C6_amended_guarded_writes :
    (setupCmds.all fun c => !cmdUnguardedWrite c) = true ∧
    (codespaceCmds.all fun c => !cmdUnguardedWrite c) = true ∧
    (runSetup wEnv cSt).exitCode ≠ 0 ∧
    Msg.nodeMissingErr ∉ (runSetup wEnv cSt).state.log ∧
    Msg.nodeVersionOkWith v20 ∈ (runSetup wEnv cSt).state.log :=
  ⟨by decide, by decide, by decide, by decide, by decide⟩

/-- C7: the scripts read no command-line arguments: two invocations that
differ only in their argument lists run the same steps, produce the same
state and the same exit status. -/
theorem claim_C7_args_ignored (env₁ env₂ : Env) (st : ScriptState)
    (h : env₁.node = env₂.node) :
    runSetup env₁ st = runSetup env₂ st ∧
    runCodespace env₁ st = runCodespace env₂ st := by
  obtain ⟨n₁, a₁⟩ := env₁
  obtain ⟨n₂, a₂⟩ := env₂
  have hn : n₁ = n₂ := h
  subst hn
  exact ⟨runCmds_node_only n₁ a₁ a₂ setupCmds st,
         runCmds_node_only n₁ a₁ a₂ codespaceCmds st⟩

theorem claim_C7_witness :
    runSetup ⟨some v20, ["--verbose", "extra"]⟩ wSt =
      runSetup ⟨some v20, []⟩ wSt ∧
    runCodespace ⟨some v20, ["-x"]⟩ wSt = runCodespace ⟨some v20, []⟩ wSt :=
  ⟨(claim_C7_args_ignored ⟨some v20, ["--verbose", "extra"]⟩
      ⟨some v20, []⟩ wSt rfl).1,
   (claim_C7_args_ignored ⟨some v20, ["-x"]⟩ ⟨some v20, []⟩ wSt rfl).2⟩

/-- C8: both scripts run under `set -e`: once a command exits non-zero, no
subsequent command executes and the whole script stops with that command's
non-zero result.  Both scripts are runs of this `set -e` sequencing. -/
theorem claim_C8_set_e (env : Env) (pre post : List Cmd) (c : Cmd)
    (st : ScriptState) (h0 : (runCmds env pre st).exitCode = 0)
    (hf : (execCmd env c ((runCmds env pre st).state)).exitCode ≠ 0) :
    runCmds env (pre ++ c :: post) st =
      execCmd env c ((runCmds env pre st).state) ∧
    (runCmds env (pre ++ c :: post) st).exitCode ≠ 0 ∧
    runSetup env st = runCmds env setupCmds st ∧
    runCodespace env st = runCmds env codespaceCmds st := by
  have he : runCmds env (pre ++ c :: post) st =
      runCmds env (c :: post) ((runCmds env pre st).state) := by
    rw [runCmds_append, if_pos h0]
  have hc : runCmds env (c :: post) ((runCmds env pre st).state) =
      execCmd env c ((runCmds env pre st).state) := by
    rw [runCmds_cons, if_neg hf]
  exact ⟨he.trans hc, by rw [he, hc]; exact hf, rfl, rfl⟩

theorem claim_C8_witness :
    runCmds wEnvNone ([Cmd.basic (BStep.echoMsg Msg.setupStart)] ++
      Cmd.checkNodeInstalled :: [Cmd.checkNodeVersion]) wSt =
      execCmd wEnvNone Cmd.checkNodeInstalled
        ((runCmds wEnvNone [Cmd.basic (BStep.echoMsg Msg.setupStart)]
          wSt).state) ∧
    (runCmds wEnvNone ([Cmd.basic (BStep.echoMsg Msg.setupStart)] ++
      Cmd.checkNodeInstalled :: [Cmd.checkNodeVersion]) wSt).exitCode ≠ 0 := by
  have h := claim_C8_set_e wEnvNone [Cmd.basic (BStep.echoMsg Msg.setupStart)]
    [Cmd.checkNodeVersion] Cmd.checkNodeInstalled wSt (by rfl) (by decide)
  exact ⟨h.1, h.2.1⟩

/-- C9: the version check parses only the major component of `node -v`:
on any well-formed version string `vMAJ.MIN.PAT` the check fails (exit 1)
exactly when the major component is below 18, whatever the minor and patch
components are. -/
theorem claim_C9_major_only (majD minD patD : List Char) (st : ScriptState)
    (args : List String) (h1 : majD ≠ [])
    (h2 : majD.all Char.isDigit = true) (h3 : minD.all Char.isDigit = true)
    (h4 : patD.all Char.isDigit = true) :
    (execCmd ⟨some ('v' :: (majD ++ '.' :: (minD ++ '.' :: patD))), args⟩
        .checkNodeVersion st).exitCode =
      (if digitsVal majD < 18 then 1 else 0) := by
  have hmaj := nodeMajorString_render majD minD patD h2 h3 h4
  have hparse := parseNat_digits majD h1 h2
  simp only [execCmd, hmaj, hparse]
  by_cases hm : digitsVal majD < 18 <;> simp [hm, sOk, addLog]

theorem claim_C9_witness :
    (execCmd ⟨some ('v' :: (['1', '8'] ++ '.' :: (['2'] ++ '.' :: ['7']))),
        []⟩ Cmd.checkNodeVersion ⟨emptyFS, []⟩).exitCode =
      (if digitsVal ['1', '8'] < 18 then 1 else 0) :=
  claim_C9_major_only ['1', '8'] ['2'] ['7'] ⟨emptyFS, []⟩ [] (by decide)
    (by decide) (by decide) (by decide)

/-- C10: the Codespace script contains no tool-version check: none of its
commands is a version check, its first non-echo command is already
`apt-get update`, and its behaviour does not depend on the installed
Node.js at all — so it never exits non-zero because of a version check. -/
theorem claim_C10_no_version_check :
    (codespaceCmds.all fun c => !cmdIsVersionCheck c) = true ∧
    ((codespaceCmds.dropWhile cmdIsEcho).head? =
      some (Cmd.basic BStep.aptUpdate)) ∧
    ∀ env₁ env₂ st, runCodespace env₁ st = runCodespace env₂ st := by
  refine ⟨by decide, by decide, fun env₁ env₂ st => ?_⟩
  exact runCmds_env_free codespaceCmds (by decide) env₁ env₂ st

end ActualBuild
